import Mathlib

/-!
Verification of the DKA calculator API's clinical calculation engine.

The repository contains three variants of the engine:
* `CV.calculateVariables` — the engine wired into the live `index.js`
  (source: `modules/calculateVariables.js`, file `src/unnamed/part_002`);
* `V1.performCalculations` — the newer `performCalculations` variant
  (first chunk of `src/unnamed/part_000`, lines 8-751);
* `V0.severity` — the severity classifier of the oldest variant
  (second chunk of `src/unnamed/part_000`, lines 760-816).

Numbers are modelled as exact rationals (`ℚ`).  JavaScript values that can
be a number or `false`/`undefined` are modelled as `Option ℚ`, with the
coercions each use-site performs spelled out (`jsNum`, `jsUndefLt`).  The
mutable `errors` array is modelled as explicit list state; the only
exception the engine can raise (calling `.toFixed` on an `undefined`
bicarbonate) is modelled with `Except Unit`.
-/

/-- Severity tier as returned by the classifiers ("severe" / "moderate" /
"mild"); the JavaScript `false` result is modelled as `Option.none` at the
use sites. -/
inductive Severity where
  | severe
  | moderate
  | mild
deriving DecidableEq, Repr

/-- One entry pushed onto the engine's `errors` array.  Each constructor
stands for one distinct push site / message template of the source. -/
inductive CalcError where
  /-- "pH of ... and bicarbonate of ... does not meet the diagnostic
  threshold for DKA." -/
  | classification
  /-- "Unable to select deficit percentage using severity rating [...]" -/
  | deficitPercentage
  /-- "Unable to select deficit volume cap ..." -/
  | deficitCap
  /-- "Unable to generate deficit volume limit string ..."
  (only present in the `calculateVariables` variant) -/
  | deficitLimit
  /-- "Unable to select insulin rate capped using insulin rate [...]." -/
  | insulinCap
  /-- "Unable to select insulin rate limit using insulin rate [...]"
  (only present in the `performCalculations` variant) -/
  | insulinLimit
deriving DecidableEq, Repr

/-- `pHRange` object of one severity tier in `config.json`. -/
structure PHRange where
  lower : ℚ
  upper : ℚ
deriving DecidableEq, Repr

/-- Per-tier configuration (`config.severity.severe` etc.). -/
structure TierConfig where
  pHRange : PHRange
  bicarbonateBelow : ℚ
  deficitPercentage : ℚ
deriving DecidableEq, Repr

/-- `config.severity`. -/
structure SeverityConfig where
  severe : TierConfig
  moderate : TierConfig
  mild : TierConfig
deriving DecidableEq, Repr

/-- `config.caps`. -/
structure Caps where
  bolus : ℚ
  glucoseBolus : ℚ
  hhsBolus : ℚ
  deficit5 : ℚ
  deficit10 : ℚ
  maintenance : ℚ
  insulin005 : ℚ
  insulin01 : ℚ
deriving DecidableEq, Repr

/-- The static configuration table (`config.json`).  The file itself is not
part of the source tree, so the engine is verified parametrically in it. -/
structure Config where
  severity : SeverityConfig
  caps : Caps
  bolusMlsPerKg : ℚ
  glucoseBolusMlsPerKg : ℚ
  hhsBolusMlsPerKg : ℚ
  deficitReplacementDuration : ℚ
deriving DecidableEq, Repr

/-- The sanitized clinical input fields the calculation engine reads.
`bicarbonate` is optional (`undefined` when absent). -/
structure PatientData where
  weight : ℚ
  pH : ℚ
  bicarbonate : Option ℚ
  shockPresent : Bool
  insulinRate : ℚ
deriving DecidableEq, Repr

/-- JavaScript numeric coercion of a number-or-`false` value as used in
arithmetic and `>` comparisons: `false` coerces to `0`. -/
def jsNum (v : Option ℚ) : ℚ := v.getD 0

/-- JavaScript `x < t` where `x` may be `undefined`: any comparison with
`undefined` evaluates to `false`. -/
def jsUndefLt (v : Option ℚ) (t : ℚ) : Bool :=
  match v with
  | some x => decide (x < t)
  | none => false

/-- Utility shared by all engine variants: a volume divided by the number
of time units over which it runs (`volumeToRate`). -/
def volumeToRate (volume unitTime : ℚ) : ℚ := volume / unitTime

/-- Written from the spec's words (refinement target, not a source
translation): a tier matches iff the pH falls in the configured half-open
range `[lower, upper)` or bicarbonate is present and strictly below the
tier's threshold. -/
def specTierMatches (d : PatientData) (t : TierConfig) : Bool :=
  (decide (t.pHRange.lower ≤ d.pH) && decide (d.pH < t.pHRange.upper))
    || (match d.bicarbonate with
        | some b => decide (b < t.bicarbonateBelow)
        | none => false)

/-- Written from the spec's words: the classifier returns the first tier in
the fixed priority order severe → moderate → mild that matches, and
`none` (undetermined) when no tier matches. -/
def specFirstMatchSeverity (cfg : Config) (d : PatientData) : Option Severity :=
  (([(Severity.severe, cfg.severity.severe),
     (Severity.moderate, cfg.severity.moderate),
     (Severity.mild, cfg.severity.mild)].find?
      (fun p => specTierMatches d p.2)).map Prod.fst)

/-- Like `specTierMatches`, but with the pH test of the mild tier using a
closed upper bound (`pH ≤ upper`): this describes the behaviour of the
oldest classifier variant and is used only to characterize it. -/
def specTierMatchesMildClosed (d : PatientData) (p : Severity × TierConfig) : Bool :=
  match p.1 with
  | .mild =>
      (decide (p.2.pHRange.lower ≤ d.pH) && decide (d.pH ≤ p.2.pHRange.upper))
        || (match d.bicarbonate with
            | some b => decide (b < p.2.bicarbonateBelow)
            | none => false)
  | _ => specTierMatches d p.2

/-- First-match classification under `specTierMatchesMildClosed`. -/
def specFirstMatchSeverityMildClosed (cfg : Config) (d : PatientData) : Option Severity :=
  (([(Severity.severe, cfg.severity.severe),
     (Severity.moderate, cfg.severity.moderate),
     (Severity.mild, cfg.severity.mild)].find?
      (specTierMatchesMildClosed d)).map Prod.fst)

namespace CV

/-- `checkSeverityLevel` of `calculateVariables` (part_002 lines 30-42).
The source condition is
`(data.pH < pHRange.upper && data.pH >= pHRange.lower) ||
 (typeof data.bicarbonate !== undefined && data.bicarbonate < bicarbonateBelow)`.
`typeof x` is a string and never the value `undefined`, so the first
conjunct of the bicarbonate test is always true; the remaining comparison
`data.bicarbonate < bicarbonateBelow` is `false` whenever bicarbonate is
`undefined` (`jsUndefLt`). -/
def checkSeverityLevel (d : PatientData) (p : Severity × TierConfig) : Option Severity :=
  if (decide (d.pH < p.2.pHRange.upper) && decide (p.2.pHRange.lower ≤ d.pH))
      || jsUndefLt d.bicarbonate p.2.bicarbonateBelow then
    some p.1
  else
    none

/-- The `severityLevels` array literal (part_002 lines 45-49). -/
def severityLevels (cfg : Config) : List (Severity × TierConfig) :=
  [(Severity.severe, cfg.severity.severe),
   (Severity.moderate, cfg.severity.moderate),
   (Severity.mild, cfg.severity.mild)]

/-- The `for`-loop of `calculateSeverity` (part_002 lines 52-57): the first
non-`false` result of `checkSeverityLevel` wins. -/
def calculateSeverityResult (cfg : Config) (d : PatientData) : Option Severity :=
  (severityLevels cfg).findSome? (checkSeverityLevel d)

/-- `calculateSeverity` (part_002 lines 24-64): the loop plus, when no
tier matched, the single push of the classification error.  The error
message interpolates `data.pH` and `data.bicarbonate` directly (no
`.toFixed` call), so it never throws. -/
def calculateSeverity (cfg : Config) (d : PatientData) (errs : List CalcError) :
    Option Severity × List CalcError :=
  match calculateSeverityResult cfg d with
  | some s => (some s, errs)
  | none => (none, errs ++ [CalcError.classification])

/-- Result shape of the three weight-times-rate, capped calculators
(numeric fields only; the formula/limit/working strings carry no numeric
content and push no errors). -/
structure BolusNode where
  val : ℚ
  mlsPerKg : ℚ
  isCapped : Bool
deriving DecidableEq, Repr

/-- `calculateBolusVolume` (part_002 lines 71-105).  The `errors` array is
in scope but never pushed to; the explicit state makes that visible. -/
def calculateBolusVolume (cfg : Config) (d : PatientData) (errs : List CalcError) :
    BolusNode × List CalcError :=
  let mlsPerKg := cfg.bolusMlsPerKg
  let cap := cfg.caps.bolus
  let uncapped := d.weight * mlsPerKg
  let isCapped := decide (uncapped > cap)
  let val := if isCapped then cap else uncapped
  (⟨val, mlsPerKg, isCapped⟩, errs)

/-- `calculateGlucoseBolusVolume` (part_002 lines 493-525). -/
def calculateGlucoseBolusVolume (cfg : Config) (d : PatientData) (errs : List CalcError) :
    BolusNode × List CalcError :=
  let mlsPerKg := cfg.glucoseBolusMlsPerKg
  let cap := cfg.caps.glucoseBolus
  let uncapped := d.weight * mlsPerKg
  let isCapped := decide (uncapped > cap)
  let val := if isCapped then cap else uncapped
  (⟨val, mlsPerKg, isCapped⟩, errs)

/-- `calculateHhsBolusVolume` (part_002 lines 531-563). -/
def calculateHhsBolusVolume (cfg : Config) (d : PatientData) (errs : List CalcError) :
    BolusNode × List CalcError :=
  let mlsPerKg := cfg.hhsBolusMlsPerKg
  let cap := cfg.caps.hhsBolus
  let uncapped := d.weight * mlsPerKg
  let isCapped := decide (uncapped > cap)
  let val := if isCapped then cap else uncapped
  (⟨val, mlsPerKg, isCapped⟩, errs)

/-- The `severityMap` lookup of `calculatePercentage.calculateVal`
(part_002 lines 123-137). -/
def deficitPercentageOf (cfg : Config) : Severity → ℚ
  | .severe => cfg.severity.severe.deficitPercentage
  | .moderate => cfg.severity.moderate.deficitPercentage
  | .mild => cfg.severity.mild.deficitPercentage

/-- `calculateVal` of `calculatePercentage` (part_002 lines 123-138):
`severityMap.hasOwnProperty(severity)` holds exactly when the memoized
severity is one of the three tier strings (`false` is not a key), else the
deficit-percentage error is pushed and `false` is returned. -/
def calculatePercentageVal (cfg : Config) (sev : Option Severity) (errs : List CalcError) :
    Option ℚ × List CalcError :=
  match sev with
  | some s => (some (deficitPercentageOf cfg s), errs)
  | none => (none, errs ++ [CalcError.deficitPercentage])

/-- Deficit percentage node (part_002 lines 161-165); `formula` and
`working` are strings (the `working` string guards the absent bicarbonate
with the "not provided" text and cannot throw). -/
structure PercNode where
  val : Option ℚ
deriving DecidableEq, Repr

/-- The `uncapped` constant of `calculateVolume` (part_002 line 180):
`percentage.val * weight * 10`, where a `false` percentage coerces to 0. -/
def deficitVolumeUncapped (weight : ℚ) (percentageVal : Option ℚ) : ℚ :=
  jsNum percentageVal * weight * 10

/-- `calculateCapped` of `calculateVolume` (part_002 lines 186-195):
`capsMap` has keys 5 and 10 only, so `capsMap.hasOwnProperty(percentage.val)`
holds exactly for those two numbers (`false` is not a key); otherwise the
deficit-cap error is pushed and `false` is returned. -/
def calculateDeficitVolumeCapped (cfg : Config) (percentageVal : Option ℚ)
    (errs : List CalcError) : Option ℚ × List CalcError :=
  match percentageVal with
  | some p =>
      if p = 5 then (some cfg.caps.deficit5, errs)
      else if p = 10 then (some cfg.caps.deficit10, errs)
      else (none, errs ++ [CalcError.deficitCap])
  | none => (none, errs ++ [CalcError.deficitCap])

/-- `calculateLimit` of `calculateVolume` (part_002 lines 211-222): builds
a limit string for a 5% or 10% percentage and otherwise pushes the
deficit-limit error; only the error effect is numeric content. -/
def calculateDeficitVolumeLimit (percentageVal : Option ℚ)
    (errs : List CalcError) : List CalcError :=
  match percentageVal with
  | some p =>
      if p = 5 then errs
      else if p = 10 then errs
      else errs ++ [CalcError.deficitLimit]
  | none => errs ++ [CalcError.deficitLimit]

/-- Deficit volume node (part_002 lines 234-240). -/
structure VolNode where
  val : Option ℚ
  isCapped : Bool
deriving DecidableEq, Repr

/-- `calculateVolume` (part_002 lines 173-241): `capped` is computed first
(possibly pushing), then `isCapped = uncapped > capped` with `false`
coercing to 0, then `val`, and the return object evaluates
`calculateLimit()` (possibly pushing again). -/
def calculateVolume (cfg : Config) (weight : ℚ) (percentageVal : Option ℚ)
    (errs : List CalcError) : VolNode × List CalcError :=
  let uncapped := deficitVolumeUncapped weight percentageVal
  let r1 := calculateDeficitVolumeCapped cfg percentageVal errs
  let capped := r1.1
  let isCapped := decide (uncapped > jsNum capped)
  let val := if isCapped then capped else some uncapped
  let errs2 := calculateDeficitVolumeLimit percentageVal r1.2
  (⟨val, isCapped⟩, errs2)

/-- Deficit volume-less-bolus node (part_002 lines 267-272). -/
structure VlbNode where
  bolusToSubtract : ℚ
  val : ℚ
deriving DecidableEq, Repr

/-- `calculateVolumeLessBolus` (part_002 lines 248-273): the bolus to
subtract is 0 for a shocked patient and otherwise the already-computed
bolus node's `val`; subtraction coerces a `false` volume to 0. -/
def calculateVolumeLessBolus (shockPresent : Bool) (bolusVal : ℚ)
    (volumeVal : Option ℚ) : VlbNode :=
  let bolusToSubtract := if shockPresent then 0 else bolusVal
  ⟨bolusToSubtract, jsNum volumeVal - bolusToSubtract⟩

/-- A node carrying only a rate value (deficit rate, maintenance rate,
starting fluid rate). -/
structure RateNode where
  val : ℚ
deriving DecidableEq, Repr

/-- Deficit subtree (part_002 lines 301-306). -/
structure DeficitNode where
  percentage : PercNode
  volume : VolNode
  volumeLessBolus : VlbNode
  rate : RateNode
deriving DecidableEq, Repr

/-- `calculateDeficit` (part_002 lines 111-307): percentage, volume,
volume-less-bolus and rate, computed once each, in order. -/
def calculateDeficit (cfg : Config) (d : PatientData) (sev : Option Severity)
    (bolusVal : ℚ) (errs : List CalcError) : DeficitNode × List CalcError :=
  let r1 := calculatePercentageVal cfg sev errs
  let percentageVal := r1.1
  let r2 := calculateVolume cfg d.weight percentageVal r1.2
  let volume := r2.1
  let volumeLessBolus := calculateVolumeLessBolus d.shockPresent bolusVal volume.val
  let rate : RateNode := ⟨volumeToRate volumeLessBolus.val cfg.deficitReplacementDuration⟩
  (⟨⟨percentageVal⟩, volume, volumeLessBolus, rate⟩, r2.2)

/-- The `calculateUncapped` tiering of the maintenance volume
(part_002 lines 325-329), the Holliday-Segar rule. -/
def maintenanceUncapped (weight : ℚ) : ℚ :=
  if weight < 10 then weight * 100
  else if weight < 20 then (weight - 10) * 50 + 1000
  else (weight - 20) * 20 + 1500

/-- Maintenance volume node (part_002 lines 370-375). -/
structure MaintVolNode where
  val : ℚ
deriving DecidableEq, Repr

/-- Maintenance subtree (part_002 lines 402-405). -/
structure MaintNode where
  volume : MaintVolNode
  rate : RateNode
deriving DecidableEq, Repr

/-- `calculateMaintenance` (part_002 lines 314-406): tiered uncapped
volume, one global cap, rate = volume / 24.  The `errors` array is in
scope but never pushed to. -/
def calculateMaintenance (cfg : Config) (weight : ℚ) (errs : List CalcError) :
    MaintNode × List CalcError :=
  let cap := cfg.caps.maintenance
  let uncapped := maintenanceUncapped weight
  let isCapped := decide (uncapped > cap)
  let val := if isCapped then cap else uncapped
  let rateVal := val / 24
  (⟨⟨val⟩, ⟨rateVal⟩⟩, errs)

/-- The `uncapped` constant of `calculateInsulinRate` (part_002 line 445). -/
def insulinUncapped (d : PatientData) : ℚ := d.insulinRate * d.weight

/-- `calculateCapped` of `calculateInsulinRate` (part_002 lines 451-460):
`insulinCapsMap` has keys 0.05 and 0.1 only; an unrecognized rate pushes
the insulin-cap error and returns `false`. -/
def calculateInsulinCapped (cfg : Config) (insulinRate : ℚ)
    (errs : List CalcError) : Option ℚ × List CalcError :=
  if insulinRate = (0.05 : ℚ) then (some cfg.caps.insulin005, errs)
  else if insulinRate = (0.1 : ℚ) then (some cfg.caps.insulin01, errs)
  else (none, errs ++ [CalcError.insulinCap])

/-- Insulin rate node (part_002 lines 480-486); the `limit` string is
built by template interpolation of `capped` and pushes nothing. -/
structure InsulinNode where
  val : Option ℚ
  isCapped : Bool
deriving DecidableEq, Repr

/-- `calculateInsulinRate` (part_002 lines 438-487): a `false` cap coerces
to 0 in `isCapped = uncapped > capped`, so an unrecognized option with a
positive uncapped product selects the `capped` branch and the node's `val`
becomes `false`. -/
def calculateInsulinRate (cfg : Config) (d : PatientData) (errs : List CalcError) :
    InsulinNode × List CalcError :=
  let uncapped := insulinUncapped d
  let r1 := calculateInsulinCapped cfg d.insulinRate errs
  let capped := r1.1
  let isCapped := decide (uncapped > jsNum capped)
  let val := if isCapped then capped else some uncapped
  (⟨val, isCapped⟩, r1.2)

/-- The full result object of `calculateVariables` (part_002 lines
565-575), with the `errors` array it accumulated. -/
structure Result where
  severity : Option Severity
  bolusVolume : BolusNode
  deficit : DeficitNode
  maintenance : MaintNode
  startingFluidRate : RateNode
  insulinRate : InsulinNode
  glucoseBolusVolume : BolusNode
  hhsBolusVolume : BolusNode
  errors : List CalcError
deriving DecidableEq, Repr

/-- `calculateVariables` (part_002 lines 8-576), the engine variant wired
into the live `index.js`: each node is computed once, in source order, and
later nodes reuse earlier nodes by value. -/
def calculateVariables (cfg : Config) (d : PatientData) : Result :=
  let e0 : List CalcError := []
  let r1 := calculateSeverity cfg d e0
  let sev := r1.1
  let r2 := calculateBolusVolume cfg d r1.2
  let bolusVolume := r2.1
  let r3 := calculateDeficit cfg d sev bolusVolume.val r2.2
  let deficit := r3.1
  let r4 := calculateMaintenance cfg d.weight r3.2
  let maintenance := r4.1
  let startingFluidRate : RateNode := ⟨deficit.rate.val + maintenance.rate.val⟩
  let r5 := calculateInsulinRate cfg d r4.2
  let r6 := calculateGlucoseBolusVolume cfg d r5.2
  let r7 := calculateHhsBolusVolume cfg d r6.2
  { severity := sev
    bolusVolume := bolusVolume
    deficit := deficit
    maintenance := maintenance
    startingFluidRate := startingFluidRate
    insulinRate := r5.1
    glucoseBolusVolume := r6.1
    hhsBolusVolume := r7.1
    errors := r7.2 }

end CV

namespace V1

/-- Evaluation monad for the `performCalculations` variant: the mutable
`errors` array is threaded as state and the single exception the function
can raise (a `TypeError` from calling `.toFixed` on an `undefined`
bicarbonate) is `Except Unit`. -/
abbrev CalcM := StateT (List CalcError) (Except Unit)

/-- `errors.push(...)` — appends one entry at the end of the array. -/
def pushErr (e : CalcError) : CalcM Unit :=
  fun errs => Except.ok ((), errs ++ [e])

/-- The uncaught `TypeError` raised by `undefined.toFixed(1)`. -/
def throwTypeError {α : Type} : CalcM α :=
  fun _ => Except.error ()

/-- `checkSeverityLevel` (part_000 lines 29-40): the source condition is
`(data.pH < pHRange.upper && data.pH >= pHRange.lower) ||
 (data.bicarbonate !== undefined && data.bicarbonate < bicarbonateBelow)`. -/
def checkSeverityLevel (d : PatientData) (p : Severity × TierConfig) : Option Severity :=
  if (decide (d.pH < p.2.pHRange.upper) && decide (p.2.pHRange.lower ≤ d.pH))
      || (d.bicarbonate.isSome && jsUndefLt d.bicarbonate p.2.bicarbonateBelow) then
    some p.1
  else
    none

/-- The `severityLevels` array literal (part_000 lines 43-47). -/
def severityLevels (cfg : Config) : List (Severity × TierConfig) :=
  [(Severity.severe, cfg.severity.severe),
   (Severity.moderate, cfg.severity.moderate),
   (Severity.mild, cfg.severity.mild)]

/-- The pure part of `severity()` (part_000 lines 50-55): the first
non-`false` result of `checkSeverityLevel` over the tier list. -/
def sevResult (cfg : Config) (d : PatientData) : Option Severity :=
  (severityLevels cfg).findSome? (checkSeverityLevel d)

/-- `severity()` (part_000 lines 23-66).  When no tier matches, the error
message template evaluates `data.pH.toFixed(2)` and then
`data.bicarbonate.toFixed(1)`: if bicarbonate is `undefined` this raises a
`TypeError` before the push; otherwise one classification error is pushed
and `false` is returned.  Every call re-runs this logic (no memoization). -/
def severityM (cfg : Config) (d : PatientData) : CalcM (Option Severity) :=
  match sevResult cfg d with
  | some s => pure (some s)
  | none =>
      match d.bicarbonate with
      | none => throwTypeError
      | some _ => do
          pushErr CalcError.classification
          pure none

/-- Bolus volume node (part_000 lines 124-131), numeric fields. -/
structure BolusNode where
  val : ℚ
  mlsPerKg : ℚ
  isCapped : Bool
deriving DecidableEq, Repr

/-- `bolusVolume()` (part_000 lines 72-132): all of its local closures are
pure, so the node is a pure function of the input and configuration. -/
def bolusVolumeNode (cfg : Config) (d : PatientData) : BolusNode :=
  let uncapped := d.weight * cfg.bolusMlsPerKg
  let isCapped := decide (uncapped > cfg.caps.bolus)
  ⟨if isCapped then cfg.caps.bolus else uncapped, cfg.bolusMlsPerKg, isCapped⟩

/-- `glucoseBolusVolume()` (part_000 lines 610-670), pure. -/
def glucoseBolusNode (cfg : Config) (d : PatientData) : BolusNode :=
  let uncapped := d.weight * cfg.glucoseBolusMlsPerKg
  let isCapped := decide (uncapped > cfg.caps.glucoseBolus)
  ⟨if isCapped then cfg.caps.glucoseBolus else uncapped, cfg.glucoseBolusMlsPerKg, isCapped⟩

/-- `hhsBolusVolume()` (part_000 lines 676-736), pure. -/
def hhsBolusNode (cfg : Config) (d : PatientData) : BolusNode :=
  let uncapped := d.weight * cfg.hhsBolusMlsPerKg
  let isCapped := decide (uncapped > cfg.caps.hhsBolus)
  ⟨if isCapped then cfg.caps.hhsBolus else uncapped, cfg.hhsBolusMlsPerKg, isCapped⟩

/-- The `switch (severity())` mapping of the deficit percentage to the
per-tier configuration value (part_000 lines 149-155). -/
def deficitPercentageOf (cfg : Config) : Severity → ℚ
  | .severe => cfg.severity.severe.deficitPercentage
  | .moderate => cfg.severity.moderate.deficitPercentage
  | .mild => cfg.severity.mild.deficitPercentage

/-- `percentage().val()` (part_000 lines 148-162): `switch (severity())`
evaluates `severity()` once; in the `default` branch the error message
template evaluates `severity()` a second time (with all its effects)
before the push, and `0` is returned. -/
def percentageValM (cfg : Config) (d : PatientData) : CalcM ℚ := do
  let s ← severityM cfg d
  match s with
  | some sev => pure (deficitPercentageOf cfg sev)
  | none => do
      let _ ← severityM cfg d
      pushErr CalcError.deficitPercentage
      pure 0

/-- `percentage().working()` (part_000 lines 174-202): `switch (severity())`
evaluates `severity()` once; the branch bodies only build strings (the
absent bicarbonate is guarded by `getBicarbonateText`, which renders
"not provided" and cannot throw). -/
def percentageWorkingM (cfg : Config) (d : PatientData) : CalcM Unit := do
  let _ ← severityM cfg d
  pure ()

/-- Deficit percentage node (part_000 lines 204-208), numeric fields. -/
structure PercNode where
  val : ℚ
deriving DecidableEq, Repr

/-- `percentage()` (part_000 lines 143-209): the return object evaluates
`val()`, `formula()` (pure) and `working()` in order. -/
def percentageM (cfg : Config) (d : PatientData) : CalcM PercNode := do
  let v ← percentageValM cfg d
  let _ ← percentageWorkingM cfg d
  pure ⟨v⟩

/-- `volume().uncapped()` (part_000 line 220): re-evaluates
`percentage()`. -/
def volumeUncappedM (cfg : Config) (d : PatientData) : CalcM ℚ := do
  let p ← percentageM cfg d
  pure (p.val * d.weight * 10)

/-- `volume().capped()` (part_000 lines 226-236): re-evaluates
`percentage()`; an unknown percentage pushes the deficit-cap error and
returns `0`. -/
def volumeCappedM (cfg : Config) (d : PatientData) : CalcM ℚ := do
  let p ← percentageM cfg d
  if p.val = 5 then pure cfg.caps.deficit5
  else if p.val = 10 then pure cfg.caps.deficit10
  else do
    pushErr CalcError.deficitCap
    pure 0

/-- `volume().isCapped()` (part_000 line 242): `uncapped() > capped()`,
evaluating `uncapped()` then `capped()`. -/
def volumeIsCappedM (cfg : Config) (d : PatientData) : CalcM Bool := do
  let u ← volumeUncappedM cfg d
  let c ← volumeCappedM cfg d
  pure (decide (u > c))

/-- `volume().val()` (part_000 line 248): `isCapped() ? capped() :
uncapped()`. -/
def volumeValM (cfg : Config) (d : PatientData) : CalcM ℚ := do
  let b ← volumeIsCappedM cfg d
  if b then volumeCappedM cfg d else volumeUncappedM cfg d

/-- `volume().limit()` (part_000 lines 260-269): `switch (percentage().val)`
evaluates `percentage()` once and builds a string. -/
def volumeLimitM (cfg : Config) (d : PatientData) : CalcM Unit := do
  let _ ← percentageM cfg d
  pure ()

/-- `volume().working()` (part_000 lines 275-280): evaluates
`percentage()`, `uncapped()` and `isCapped()` in order. -/
def volumeWorkingM (cfg : Config) (d : PatientData) : CalcM Unit := do
  let _ ← percentageM cfg d
  let _ ← volumeUncappedM cfg d
  let _ ← volumeIsCappedM cfg d
  pure ()

/-- Deficit volume node (part_000 lines 282-288), numeric fields. -/
structure VolNode where
  val : ℚ
  isCapped : Bool
deriving DecidableEq, Repr

/-- `volume()` (part_000 lines 215-289): the return object evaluates
`val()`, `formula()` (pure), `limit()`, `working()` and `isCapped()` in
order. -/
def volumeM (cfg : Config) (d : PatientData) : CalcM VolNode := do
  let v ← volumeValM cfg d
  let _ ← volumeLimitM cfg d
  let _ ← volumeWorkingM cfg d
  let ic ← volumeIsCappedM cfg d
  pure ⟨v, ic⟩

/-- `volumeLessBolus().bolusToSubtract()` (part_000 lines 300-301): zero
for a shocked patient, otherwise the (re-computed, but pure and therefore
identical) bolus volume node's `val`. -/
def bolusToSubtract (cfg : Config) (d : PatientData) : ℚ :=
  if d.shockPresent then 0 else (bolusVolumeNode cfg d).val

/-- `volumeLessBolus().val()` (part_000 line 307). -/
def vlbValM (cfg : Config) (d : PatientData) : CalcM ℚ := do
  let vol ← volumeM cfg d
  pure (vol.val - bolusToSubtract cfg d)

/-- `volumeLessBolus().working()` (part_000 lines 320-323): evaluates
`volume()`, `bolusToSubtract()` (pure) and `val()` in order. -/
def vlbWorkingM (cfg : Config) (d : PatientData) : CalcM Unit := do
  let _ ← volumeM cfg d
  let _ ← vlbValM cfg d
  pure ()

/-- Deficit volume-less-bolus node (part_000 lines 325-330), numeric
fields. -/
structure VlbNode where
  bolusToSubtract : ℚ
  val : ℚ
deriving DecidableEq, Repr

/-- `volumeLessBolus()` (part_000 lines 295-331): the return object
evaluates `bolusToSubtract()` (pure), `val()`, `formula()` (pure) and
`working()` in order. -/
def volumeLessBolusM (cfg : Config) (d : PatientData) : CalcM VlbNode := do
  let v ← vlbValM cfg d
  let _ ← vlbWorkingM cfg d
  pure ⟨bolusToSubtract cfg d, v⟩

/-- `rate().val()` (part_000 lines 342-343). -/
def rateValM (cfg : Config) (d : PatientData) : CalcM ℚ := do
  let vlb ← volumeLessBolusM cfg d
  pure (volumeToRate vlb.val cfg.deficitReplacementDuration)

/-- `rate().working()` (part_000 lines 356-359): evaluates
`volumeLessBolus()` and `val()` in order. -/
def rateWorkingM (cfg : Config) (d : PatientData) : CalcM Unit := do
  let _ ← volumeLessBolusM cfg d
  let _ ← rateValM cfg d
  pure ()

/-- A node carrying only a rate value. -/
structure RateNode where
  val : ℚ
deriving DecidableEq, Repr

/-- `rate()` (part_000 lines 337-366). -/
def rateM (cfg : Config) (d : PatientData) : CalcM RateNode := do
  let v ← rateValM cfg d
  let _ ← rateWorkingM cfg d
  pure ⟨v⟩

/-- Deficit subtree (part_000 lines 368-373). -/
structure DeficitNode where
  percentage : PercNode
  volume : VolNode
  volumeLessBolus : VlbNode
  rate : RateNode
deriving DecidableEq, Repr

/-- `deficit()` (part_000 lines 138-374): the return object evaluates
`percentage()`, `volume()`, `volumeLessBolus()` and `rate()` in order. -/
def deficitM (cfg : Config) (d : PatientData) : CalcM DeficitNode := do
  let p ← percentageM cfg d
  let v ← volumeM cfg d
  let vlb ← volumeLessBolusM cfg d
  let r ← rateM cfg d
  pure ⟨p, v, vlb, r⟩

/-- Maintenance volume node (part_000 lines 452-457), numeric fields. -/
structure MaintVolNode where
  val : ℚ
deriving DecidableEq, Repr

/-- Maintenance subtree (part_000 lines 493-496). -/
structure MaintNode where
  volume : MaintVolNode
  rate : RateNode
deriving DecidableEq, Repr

/-- `maintenance()` (part_000 lines 380-497): all closures are pure, so
the subtree is a pure function; `rate().val()` is `volume().val / 24`
(line 469) with `volume()` re-evaluated but pure. -/
def maintenanceNode (cfg : Config) (d : PatientData) : MaintNode :=
  let uncapped :=
    if d.weight < 10 then d.weight * 100
    else if d.weight < 20 then (d.weight - 10) * 50 + 1000
    else (d.weight - 20) * 20 + 1500
  let isCapped := decide (uncapped > cfg.caps.maintenance)
  let val := if isCapped then cfg.caps.maintenance else uncapped
  ⟨⟨val⟩, ⟨val / 24⟩⟩

/-- `startingFluidRate().val()` (part_000 line 508): re-evaluates
`deficit()` and `maintenance()` (the latter pure). -/
def sfrValM (cfg : Config) (d : PatientData) : CalcM ℚ := do
  let dfc ← deficitM cfg d
  pure (dfc.rate.val + (maintenanceNode cfg d).rate.val)

/-- `startingFluidRate().working()` (part_000 lines 520-525): evaluates
`deficit().rate.val`, `maintenance().rate.val` (pure) and `val()` in
order. -/
def sfrWorkingM (cfg : Config) (d : PatientData) : CalcM Unit := do
  let _ ← deficitM cfg d
  let _ ← sfrValM cfg d
  pure ()

/-- `startingFluidRate()` (part_000 lines 503-532). -/
def startingFluidRateM (cfg : Config) (d : PatientData) : CalcM RateNode := do
  let v ← sfrValM cfg d
  let _ ← sfrWorkingM cfg d
  pure ⟨v⟩

/-- The `uncapped()` closure of `insulinRate()` (part_000 line 543). -/
def insulinUncapped (d : PatientData) : ℚ := d.insulinRate * d.weight

/-- `insulinRate().capped()` (part_000 lines 549-555): a rate other than
0.05 or 0.1 pushes the insulin-cap error and falls off the function,
returning `undefined` (`none`). -/
def insulinCappedM (cfg : Config) (d : PatientData) : CalcM (Option ℚ) :=
  if d.insulinRate = (0.05 : ℚ) then pure (some cfg.caps.insulin005)
  else if d.insulinRate = (0.1 : ℚ) then pure (some cfg.caps.insulin01)
  else do
    pushErr CalcError.insulinCap
    pure none

/-- `insulinRate().isCapped()` (part_000 line 561): `uncapped() > capped()`;
when `capped()` returned `undefined` the comparison is `NaN`-like and
evaluates to `false`. -/
def insulinIsCappedM (cfg : Config) (d : PatientData) : CalcM Bool := do
  let c ← insulinCappedM cfg d
  pure (match c with
        | some cap => decide (insulinUncapped d > cap)
        | none => false)

/-- `insulinRate().val()` (part_000 line 567): `isCapped() ? capped() :
uncapped()`; the value is a number unless the (unreachable here) capped
branch returned `undefined`. -/
def insulinValM (cfg : Config) (d : PatientData) : CalcM (Option ℚ) := do
  let b ← insulinIsCappedM cfg d
  if b then insulinCappedM cfg d else pure (some (insulinUncapped d))

/-- `insulinRate().limit()` (part_000 lines 579-586): a rate other than
0.05 or 0.1 pushes the insulin-limit error; the limit strings read the
caps from the configuration but carry no numeric content. -/
def insulinLimitM (_cfg : Config) (d : PatientData) : CalcM Unit :=
  if d.insulinRate = (0.05 : ℚ) then pure ()
  else if d.insulinRate = (0.1 : ℚ) then pure ()
  else pushErr CalcError.insulinLimit

/-- `insulinRate().working()` (part_000 lines 592-595): evaluates
`val()`. -/
def insulinWorkingM (cfg : Config) (d : PatientData) : CalcM Unit := do
  let _ ← insulinValM cfg d
  pure ()

/-- Insulin rate node (part_000 lines 597-603), numeric fields. -/
structure InsulinNode where
  val : Option ℚ
  isCapped : Bool
deriving DecidableEq, Repr

/-- `insulinRate()` (part_000 lines 538-604): the return object evaluates
`val()`, `isCapped()`, `formula()` (pure), `limit()` and `working()` in
order. -/
def insulinRateM (cfg : Config) (d : PatientData) : CalcM InsulinNode := do
  let v ← insulinValM cfg d
  let ic ← insulinIsCappedM cfg d
  let _ ← insulinLimitM cfg d
  let _ ← insulinWorkingM cfg d
  pure ⟨v, ic⟩

/-- The result object of `performCalculations` (part_000 lines 738-748),
without the `errors` field, which the runner returns alongside. -/
structure Calc where
  severity : Option Severity
  bolusVolume : BolusNode
  deficit : DeficitNode
  maintenance : MaintNode
  startingFluidRate : RateNode
  insulinRate : InsulinNode
  glucoseBolusVolume : BolusNode
  hhsBolusVolume : BolusNode
deriving DecidableEq, Repr

/-- `performCalculations` body (part_000 lines 8-749): the result object's
fields are evaluated in source order; the pure calculators are interleaved
at their positions but have no effects. -/
def performCalculationsM (cfg : Config) (d : PatientData) : CalcM Calc := do
  let s ← severityM cfg d
  let dfc ← deficitM cfg d
  let sfr ← startingFluidRateM cfg d
  let ins ← insulinRateM cfg d
  pure { severity := s
         bolusVolume := bolusVolumeNode cfg d
         deficit := dfc
         maintenance := maintenanceNode cfg d
         startingFluidRate := sfr
         insulinRate := ins
         glucoseBolusVolume := glucoseBolusNode cfg d
         hhsBolusVolume := hhsBolusNode cfg d }

/-- One evaluation pass of `performCalculations`: starts with an empty
`errors` array and either throws (`Except.error`) or returns the result
object together with the accumulated error list. -/
def performCalculations (cfg : Config) (d : PatientData) :
    Except Unit (Calc × List CalcError) :=
  (performCalculationsM cfg d).run []

end V1

namespace V0

/-- The `severity()` classifier of the oldest engine variant (part_000,
second chunk, lines 775-816): an if-else chain testing severe pH, severe
bicarbonate, moderate pH, moderate bicarbonate, mild pH, mild bicarbonate
in that order.  The severe and moderate pH tests use a strict upper bound
(`pH < upper`), but the mild pH test is `pH <= upper && pH >= lower`
(line 797) — a closed upper bound.  Only the returned tier is modelled
here: the no-match branch additionally pushes one classification error
(and raises a `TypeError` when bicarbonate is `undefined`, exactly as in
the newer variant), but no theorem below depends on those effects. -/
def severity (cfg : Config) (d : PatientData) : Option Severity :=
  if decide (d.pH < cfg.severity.severe.pHRange.upper)
      && decide (cfg.severity.severe.pHRange.lower ≤ d.pH) then
    some Severity.severe
  else if d.bicarbonate.isSome
      && jsUndefLt d.bicarbonate cfg.severity.severe.bicarbonateBelow then
    some Severity.severe
  else if decide (d.pH < cfg.severity.moderate.pHRange.upper)
      && decide (cfg.severity.moderate.pHRange.lower ≤ d.pH) then
    some Severity.moderate
  else if d.bicarbonate.isSome
      && jsUndefLt d.bicarbonate cfg.severity.moderate.bicarbonateBelow then
    some Severity.moderate
  else if decide (d.pH ≤ cfg.severity.mild.pHRange.upper)
      && decide (cfg.severity.mild.pHRange.lower ≤ d.pH) then
    some Severity.mild
  else if d.bicarbonate.isSome
      && jsUndefLt d.bicarbonate cfg.severity.mild.bicarbonateBelow then
    some Severity.mild
  else
    none

end V0

/-- A concrete, clinically plausible configuration table used by the
closed witness and counterexample theorems (the real `config.json` is not
part of the source tree; all parametric theorems hold for every
configuration). -/
def exampleConfig : Config :=
  { severity :=
      { severe := ⟨⟨65/10, 71/10⟩, 5, 10⟩
        moderate := ⟨⟨71/10, 72/10⟩, 10, 5⟩
        mild := ⟨⟨72/10, 73/10⟩, 15, 5⟩ }
    caps := { bolus := 500, glucoseBolus := 100, hhsBolus := 1000,
              deficit5 := 2500, deficit10 := 5000, maintenance := 2600,
              insulin005 := 3, insulin01 := 6 }
    bolusMlsPerKg := 10
    glucoseBolusMlsPerKg := 2
    hhsBolusMlsPerKg := 20
    deficitReplacementDuration := 48 }

/-- Input sitting exactly on the mild tier's upper pH bound, bicarbonate
absent. -/
def boundaryInput : PatientData := ⟨20, 73/10, none, false, 1/20⟩

/-- Input with pH above every tier's range and bicarbonate absent. -/
def noMatchNoBicarbInput : PatientData := ⟨20, 74/10, none, false, 1/20⟩

/-- Input with pH inside the severe tier of `exampleConfig`. -/
def severeInput : PatientData := ⟨5, 68/10, none, false, 1/20⟩

/-- Number of classification errors ("does not meet the diagnostic
threshold") in an error list. -/
def countClassification : List CalcError → Nat
  | [] => 0
  | CalcError.classification :: es => countClassification es + 1
  | _ :: es => countClassification es

/-- Input with pH above every tier's range and bicarbonate present but
above every threshold. -/
def noMatchInput : PatientData := ⟨20, 74/10, some 30, false, 1/20⟩

/-- The following `e...` lists record, bottom-up, the exact sequence of
error pushes each closure of the `performCalculations` variant performs on
an input whose severity is undetermined with bicarbonate present (and a
recognized insulin option): every `severity()` re-evaluation pushes the
classification error again, every `percentage().val()` additionally pushes
a deficit-percentage error, and every `volume().capped()` a deficit-cap
error. -/
def eSev : List CalcError := [CalcError.classification]

def ePctVal : List CalcError := eSev ++ eSev ++ [CalcError.deficitPercentage]

def ePct : List CalcError := ePctVal ++ eSev

def eVolCapped : List CalcError := ePct ++ [CalcError.deficitCap]

def eVolIsCapped : List CalcError := ePct ++ eVolCapped

def eVolVal : List CalcError := eVolIsCapped ++ ePct

def eVolWork : List CalcError := ePct ++ ePct ++ eVolIsCapped

def eVol : List CalcError := eVolVal ++ ePct ++ eVolWork ++ eVolIsCapped

def eVlb : List CalcError := eVol ++ (eVol ++ eVol)

def eRate : List CalcError := eVlb ++ (eVlb ++ eVlb)

def eDeficit : List CalcError := ePct ++ eVol ++ eVlb ++ eRate

def eSfr : List CalcError := eDeficit ++ (eDeficit ++ eDeficit)

def eMain : List CalcError := eSev ++ eDeficit ++ eSfr

lemma isSome_and_jsUndefLt (v : Option ℚ) (t : ℚ) :
    (v.isSome && jsUndefLt v t) = jsUndefLt v t := by
  cases v <;> simp [jsUndefLt]

lemma cv_check_eq_spec (d : PatientData) (p : Severity × TierConfig) :
    CV.checkSeverityLevel d p = if specTierMatches d p.2 then some p.1 else none := by
  have hcond : ((decide (d.pH < p.2.pHRange.upper) && decide (p.2.pHRange.lower ≤ d.pH))
      || jsUndefLt d.bicarbonate p.2.bicarbonateBelow) = specTierMatches d p.2 := by
    unfold specTierMatches jsUndefLt
    rw [Bool.and_comm]
  unfold CV.checkSeverityLevel
  rw [hcond]

lemma v1_check_eq_spec (d : PatientData) (p : Severity × TierConfig) :
    V1.checkSeverityLevel d p = if specTierMatches d p.2 then some p.1 else none := by
  have hcond : ((decide (d.pH < p.2.pHRange.upper) && decide (p.2.pHRange.lower ≤ d.pH))
      || (d.bicarbonate.isSome && jsUndefLt d.bicarbonate p.2.bicarbonateBelow))
      = specTierMatches d p.2 := by
    rw [isSome_and_jsUndefLt]
    unfold specTierMatches jsUndefLt
    rw [Bool.and_comm]
  unfold V1.checkSeverityLevel
  rw [hcond]

lemma cv_severity_eq_spec (cfg : Config) (d : PatientData) :
    CV.calculateSeverityResult cfg d = specFirstMatchSeverity cfg d := by
  unfold CV.calculateSeverityResult specFirstMatchSeverity CV.severityLevels
  simp only [List.findSome?_cons, List.find?_cons, cv_check_eq_spec]
  by_cases h1 : specTierMatches d cfg.severity.severe <;>
    by_cases h2 : specTierMatches d cfg.severity.moderate <;>
      by_cases h3 : specTierMatches d cfg.severity.mild <;>
        simp [h1, h2, h3, List.findSome?]

lemma v1_severity_eq_spec (cfg : Config) (d : PatientData) :
    V1.sevResult cfg d = specFirstMatchSeverity cfg d := by
  unfold V1.sevResult specFirstMatchSeverity V1.severityLevels
  simp only [List.findSome?_cons, List.find?_cons, v1_check_eq_spec]
  by_cases h1 : specTierMatches d cfg.severity.severe <;>
    by_cases h2 : specTierMatches d cfg.severity.moderate <;>
      by_cases h3 : specTierMatches d cfg.severity.mild <;>
        simp [h1, h2, h3, List.findSome?]

lemma ite_ite_or {α : Type} (a b : Bool) (x z : α) :
    (if a = true then x else if b = true then x else z)
      = (if (a || b) = true then x else z) := by
  cases a <;> cases b <;> simp

lemma v0_severity_eq_spec_mild_closed (cfg : Config) (d : PatientData) :
    V0.severity cfg d = specFirstMatchSeverityMildClosed cfg d := by
  unfold V0.severity
  rw [ite_ite_or, ite_ite_or, ite_ite_or]
  have hsv : ((decide (d.pH < cfg.severity.severe.pHRange.upper)
        && decide (cfg.severity.severe.pHRange.lower ≤ d.pH))
      || (d.bicarbonate.isSome && jsUndefLt d.bicarbonate cfg.severity.severe.bicarbonateBelow))
      = specTierMatchesMildClosed d (Severity.severe, cfg.severity.severe) := by
    rw [isSome_and_jsUndefLt]
    unfold specTierMatchesMildClosed specTierMatches jsUndefLt
    rw [Bool.and_comm]
  have hmo : ((decide (d.pH < cfg.severity.moderate.pHRange.upper)
        && decide (cfg.severity.moderate.pHRange.lower ≤ d.pH))
      || (d.bicarbonate.isSome && jsUndefLt d.bicarbonate cfg.severity.moderate.bicarbonateBelow))
      = specTierMatchesMildClosed d (Severity.moderate, cfg.severity.moderate) := by
    rw [isSome_and_jsUndefLt]
    unfold specTierMatchesMildClosed specTierMatches jsUndefLt
    rw [Bool.and_comm]
  have hmi : ((decide (d.pH ≤ cfg.severity.mild.pHRange.upper)
        && decide (cfg.severity.mild.pHRange.lower ≤ d.pH))
      || (d.bicarbonate.isSome && jsUndefLt d.bicarbonate cfg.severity.mild.bicarbonateBelow))
      = specTierMatchesMildClosed d (Severity.mild, cfg.severity.mild) := by
    rw [isSome_and_jsUndefLt]
    unfold specTierMatchesMildClosed jsUndefLt
    rw [Bool.and_comm]
  rw [hsv, hmo, hmi]
  unfold specFirstMatchSeverityMildClosed
  by_cases h1 : specTierMatchesMildClosed d (Severity.severe, cfg.severity.severe) <;>
    by_cases h2 : specTierMatchesMildClosed d (Severity.moderate, cfg.severity.moderate) <;>
      by_cases h3 : specTierMatchesMildClosed d (Severity.mild, cfg.severity.mild) <;>
        simp [h1, h2, h3, List.find?]



/-- Claim C1 (counterexample).  The claim predicts that a pH exactly equal
to a tier's upper bound never matches that tier, so at pH = mild upper
bound (bicarbonate absent, no other tier matching) the classifier must
return no tier; the oldest severity classifier (part_000 lines 775-816),
whose mild pH test is `pH <= upper`, returns mild there. -/
theorem claim1_counterexample :
    V0.severity exampleConfig boundaryInput = some Severity.mild ∧
    specFirstMatchSeverity exampleConfig boundaryInput = none ∧
    boundaryInput.pH = exampleConfig.severity.mild.pHRange.upper := by
  refine ⟨?_, ?_, ?_⟩
  · norm_num [V0.severity, exampleConfig, boundaryInput, jsUndefLt]
  · norm_num [specFirstMatchSeverity, specTierMatches, exampleConfig, boundaryInput,
      List.find?]
  · norm_num [exampleConfig, boundaryInput]

/-- Claim C1 (amended).  For every configuration and input, the two
`checkSeverityLevel`-based classifiers (the live `calculateVariables` and
the newer `performCalculations`) return exactly the first tier in the
fixed priority order severe → moderate → mild whose half-open pH range
`[lower, upper)` contains the pH or (when bicarbonate is present) whose
bicarbonate threshold is strictly above the bicarbonate — in particular a
pH equal to a tier's upper bound never matches that tier and a matched
tier shadows all less-severe tiers; the oldest chained classifier instead
realizes the same first-match semantics with a closed upper pH bound for
the mild tier only. -/
theorem claim1_severity_first_match (cfg : Config) (d : PatientData) :
    CV.calculateSeverityResult cfg d = specFirstMatchSeverity cfg d ∧
    V1.sevResult cfg d = specFirstMatchSeverity cfg d ∧
    V0.severity cfg d = specFirstMatchSeverityMildClosed cfg d :=
  ⟨cv_severity_eq_spec cfg d, v1_severity_eq_spec cfg d,
    v0_severity_eq_spec_mild_closed cfg d⟩

/-- Claim C2.  For every configuration, input and error state, each of the
three weight-times-rate calculators (bolus, glucose bolus, HHS bolus, in
both the live engine and the newer `performCalculations` variant) returns
the configured ceiling with `isCapped = true` when `weight × rate`
exceeds the ceiling and the exact product `weight × rate` with
`isCapped = false` otherwise, and leaves the error list untouched. -/
theorem claim2_capped_quantity (cfg : Config) (d : PatientData) (errs : List CalcError) :
    CV.calculateBolusVolume cfg d errs
      = (⟨if d.weight * cfg.bolusMlsPerKg > cfg.caps.bolus then cfg.caps.bolus
            else d.weight * cfg.bolusMlsPerKg,
          cfg.bolusMlsPerKg,
          decide (d.weight * cfg.bolusMlsPerKg > cfg.caps.bolus)⟩, errs) ∧
    CV.calculateGlucoseBolusVolume cfg d errs
      = (⟨if d.weight * cfg.glucoseBolusMlsPerKg > cfg.caps.glucoseBolus then
            cfg.caps.glucoseBolus
          else d.weight * cfg.glucoseBolusMlsPerKg,
          cfg.glucoseBolusMlsPerKg,
          decide (d.weight * cfg.glucoseBolusMlsPerKg > cfg.caps.glucoseBolus)⟩, errs) ∧
    CV.calculateHhsBolusVolume cfg d errs
      = (⟨if d.weight * cfg.hhsBolusMlsPerKg > cfg.caps.hhsBolus then cfg.caps.hhsBolus
          else d.weight * cfg.hhsBolusMlsPerKg,
          cfg.hhsBolusMlsPerKg,
          decide (d.weight * cfg.hhsBolusMlsPerKg > cfg.caps.hhsBolus)⟩, errs) ∧
    V1.bolusVolumeNode cfg d
      = ⟨if d.weight * cfg.bolusMlsPerKg > cfg.caps.bolus then cfg.caps.bolus
          else d.weight * cfg.bolusMlsPerKg,
         cfg.bolusMlsPerKg,
         decide (d.weight * cfg.bolusMlsPerKg > cfg.caps.bolus)⟩ ∧
    V1.glucoseBolusNode cfg d
      = ⟨if d.weight * cfg.glucoseBolusMlsPerKg > cfg.caps.glucoseBolus then
            cfg.caps.glucoseBolus
         else d.weight * cfg.glucoseBolusMlsPerKg,
         cfg.glucoseBolusMlsPerKg,
         decide (d.weight * cfg.glucoseBolusMlsPerKg > cfg.caps.glucoseBolus)⟩ ∧
    V1.hhsBolusNode cfg d
      = ⟨if d.weight * cfg.hhsBolusMlsPerKg > cfg.caps.hhsBolus then cfg.caps.hhsBolus
         else d.weight * cfg.hhsBolusMlsPerKg,
         cfg.hhsBolusMlsPerKg,
         decide (d.weight * cfg.hhsBolusMlsPerKg > cfg.caps.hhsBolus)⟩ := by
  refine ⟨?_, ?_, ?_, ?_, ?_, ?_⟩ <;>
    simp [CV.calculateBolusVolume, CV.calculateGlucoseBolusVolume,
      CV.calculateHhsBolusVolume, V1.bolusVolumeNode, V1.glucoseBolusNode,
      V1.hhsBolusNode]

/-- Claim C4.  For every configuration and input, the deficit
volume-less-bolus node subtracts exactly 0 when shock is present
(regardless of weight) and otherwise exactly the bolus volume node's
`val` field, in both the live engine (which reuses the memoized node) and
the newer `performCalculations` variant (which re-invokes the pure bolus
calculator and therefore obtains the identical value). -/
theorem claim4_bolus_to_subtract (cfg : Config) (d : PatientData) :
    (CV.calculateVariables cfg d).deficit.volumeLessBolus.bolusToSubtract
      = (if d.shockPresent then 0 else (CV.calculateVariables cfg d).bolusVolume.val) ∧
    V1.bolusToSubtract cfg d
      = (if d.shockPresent then 0 else (V1.bolusVolumeNode cfg d).val) := by
  constructor
  · simp [CV.calculateVariables, CV.calculateDeficit, CV.calculateVolumeLessBolus]
  · rfl

/-- Claim C8.  For every configuration and input, the starting fluid rate
value of the live engine is exactly the sum of the deficit rate value and
the maintenance rate value (exact rational arithmetic: no extra capping
and no intermediate rounding). -/
theorem claim8_starting_fluid_rate (cfg : Config) (d : PatientData) :
    (CV.calculateVariables cfg d).startingFluidRate.val
      = (CV.calculateVariables cfg d).deficit.rate.val
          + (CV.calculateVariables cfg d).maintenance.rate.val := rfl

lemma calcm_run_bind {α β : Type} (x : V1.CalcM α) (f : α → V1.CalcM β)
    (s : List CalcError) : (x >>= f) s = (x s).bind (fun p => f p.1 p.2) := rfl

lemma calcm_run_pure {α : Type} (a : α) (s : List CalcError) :
    (pure a : V1.CalcM α) s = Except.ok (a, s) := rfl

lemma calcm_run_map {α β : Type} (f : α → β) (x : V1.CalcM α)
    (s : List CalcError) :
    (f <$> x) s = (x s).bind (fun p => Except.ok (f p.1, p.2)) := rfl

lemma except_bind_ok {ε α β : Type} (v : α) (g : α → Except ε β) :
    (Except.ok v).bind g = g v := rfl

lemma except_bind_fail {ε α β : Type} (e : ε) (g : α → Except ε β) :
    (Except.error e : Except ε α).bind g = Except.error e := rfl

lemma v1_severityM_throw (cfg : Config) (d : PatientData)
    (h1 : V1.sevResult cfg d = none) (h2 : d.bicarbonate = none)
    (s : List CalcError) : V1.severityM cfg d s = Except.error () := by
  unfold V1.severityM
  rw [h1, h2]
  rfl

/-- Claim C6 (the code crashes where the claim says it must not).  For
every configuration and every input on which no severity tier matches and
bicarbonate is absent, the `performCalculations` variant does not complete
the evaluation pass: building the classification error message evaluates
`data.bicarbonate.toFixed(1)` on `undefined`, raising a `TypeError` that
aborts the whole pass, instead of the claimed graceful "not provided"
wording. -/
theorem claim6_missing_bicarbonate_throws (cfg : Config) (d : PatientData)
    (h1 : specFirstMatchSeverity cfg d = none) (h2 : d.bicarbonate = none) :
    V1.performCalculations cfg d = Except.error () := by
  have hres : V1.sevResult cfg d = none := by
    rw [v1_severity_eq_spec, h1]
  unfold V1.performCalculations V1.performCalculationsM
  show (V1.severityM cfg d >>= _) [] = Except.error ()
  rw [calcm_run_bind, v1_severityM_throw cfg d hres h2, except_bind_fail]



/-- Claim C6 witness: the hypotheses of
`claim6_missing_bicarbonate_throws` hold at `exampleConfig` and
`noMatchNoBicarbInput`, and the pass indeed throws there. -/
theorem claim6_missing_bicarbonate_throws_witness :
    specFirstMatchSeverity exampleConfig noMatchNoBicarbInput = none ∧
    noMatchNoBicarbInput.bicarbonate = none ∧
    V1.performCalculations exampleConfig noMatchNoBicarbInput = Except.error () := by
  have h1 : specFirstMatchSeverity exampleConfig noMatchNoBicarbInput = none := by
    norm_num [specFirstMatchSeverity, specTierMatches, exampleConfig,
      noMatchNoBicarbInput, List.find?]
  exact ⟨h1, rfl, claim6_missing_bicarbonate_throws exampleConfig noMatchNoBicarbInput h1 rfl⟩

lemma cv_deficit_capped_fst (cfg : Config) (pv : Option ℚ)
    (e1 e2 : List CalcError) :
    (CV.calculateDeficitVolumeCapped cfg pv e1).1
      = (CV.calculateDeficitVolumeCapped cfg pv e2).1 := by
  cases pv
  · rfl
  · simp only [CV.calculateDeficitVolumeCapped]
    split_ifs <;> rfl

/-- Claim C3.  For every configuration, error state and input whose
severity is determined, the live engine's deficit percentage node carries
that tier's configured percentage; the deficit volume's uncapped value is
exactly percentage × weight × 10; the ceiling is selected by the
percentage value itself (the configured 5%-ceiling for percentage 5, the
configured 10%-ceiling for percentage 10) and any other percentage
registers a deficit-cap error instead of silently choosing a ceiling; and
the volume node in the result tree is computed by exactly this
calculator. -/
theorem claim3_deficit_volume (cfg : Config) (d : PatientData)
    (errs : List CalcError) (s : Severity)
    (h : CV.calculateSeverityResult cfg d = some s) :
    (CV.calculateVariables cfg d).deficit.percentage.val
      = some (CV.deficitPercentageOf cfg s) ∧
    CV.deficitVolumeUncapped d.weight (some (CV.deficitPercentageOf cfg s))
      = CV.deficitPercentageOf cfg s * d.weight * 10 ∧
    CV.calculateDeficitVolumeCapped cfg (some (CV.deficitPercentageOf cfg s)) errs
      = (if CV.deficitPercentageOf cfg s = 5 then (some cfg.caps.deficit5, errs)
         else if CV.deficitPercentageOf cfg s = 10 then (some cfg.caps.deficit10, errs)
         else (none, errs ++ [CalcError.deficitCap])) ∧
    (CV.calculateVariables cfg d).deficit.volume
      = (CV.calculateVolume cfg d.weight (some (CV.deficitPercentageOf cfg s)) errs).1 := by
  refine ⟨?_, ?_, ?_, ?_⟩
  · simp [CV.calculateVariables, CV.calculateSeverity, h, CV.calculateDeficit,
      CV.calculatePercentageVal]
  · simp [CV.deficitVolumeUncapped, jsNum]
  · rfl
  · have hfst := cv_deficit_capped_fst cfg (some (CV.deficitPercentageOf cfg s))
      ((CV.calculateBolusVolume cfg d []).2) errs
    simp [CV.calculateVariables, CV.calculateSeverity, h, CV.calculateDeficit,
      CV.calculatePercentageVal, CV.calculateVolume, hfst]



/-- Claim C3 witness: `exampleConfig` and `severeInput` give a determined
(severe) severity and the conclusion of `claim3_deficit_volume` there. -/
theorem claim3_deficit_volume_witness :
    CV.calculateSeverityResult exampleConfig severeInput = some Severity.severe ∧
    ((CV.calculateVariables exampleConfig severeInput).deficit.percentage.val
        = some (CV.deficitPercentageOf exampleConfig Severity.severe) ∧
      CV.deficitVolumeUncapped severeInput.weight
          (some (CV.deficitPercentageOf exampleConfig Severity.severe))
        = CV.deficitPercentageOf exampleConfig Severity.severe * severeInput.weight * 10 ∧
      CV.calculateDeficitVolumeCapped exampleConfig
          (some (CV.deficitPercentageOf exampleConfig Severity.severe)) []
        = (if CV.deficitPercentageOf exampleConfig Severity.severe = 5 then
             (some exampleConfig.caps.deficit5, [])
           else if CV.deficitPercentageOf exampleConfig Severity.severe = 10 then
             (some exampleConfig.caps.deficit10, [])
           else (none, [] ++ [CalcError.deficitCap])) ∧
      (CV.calculateVariables exampleConfig severeInput).deficit.volume
        = (CV.calculateVolume exampleConfig severeInput.weight
            (some (CV.deficitPercentageOf exampleConfig Severity.severe)) []).1) := by
  have h : CV.calculateSeverityResult exampleConfig severeInput = some Severity.severe := by
    norm_num [CV.calculateSeverityResult, CV.severityLevels, CV.checkSeverityLevel,
      jsUndefLt, exampleConfig, severeInput, List.findSome?]
  exact ⟨h, claim3_deficit_volume exampleConfig severeInput [] Severity.severe h⟩

/-- Claim C7.  For every configuration, error state and input with
positive weight, the maintenance volume's uncapped value follows the
three-tier Holliday-Segar rule exactly as the claim states it, the node
value is that uncapped value capped at the single global maintenance
ceiling, the maintenance rate is the volume value divided by 24, the
calculator pushes no errors, and the `performCalculations` variant
computes the identical node. -/
theorem claim7_maintenance (cfg : Config) (d : PatientData)
    (errs : List CalcError) (_hw : 0 < d.weight) :
    CV.maintenanceUncapped d.weight
      = (if d.weight < 10 then d.weight * 100
         else if d.weight < 20 then 1000 + (d.weight - 10) * 50
         else 1500 + (d.weight - 20) * 20) ∧
    (CV.calculateVariables cfg d).maintenance.volume.val
      = (if CV.maintenanceUncapped d.weight > cfg.caps.maintenance then
           cfg.caps.maintenance
         else CV.maintenanceUncapped d.weight) ∧
    (CV.calculateVariables cfg d).maintenance.rate.val
      = (CV.calculateVariables cfg d).maintenance.volume.val / 24 ∧
    (CV.calculateMaintenance cfg d.weight errs).2 = errs ∧
    V1.maintenanceNode cfg d
      = ⟨⟨(CV.calculateVariables cfg d).maintenance.volume.val⟩,
         ⟨(CV.calculateVariables cfg d).maintenance.volume.val / 24⟩⟩ := by
  refine ⟨?_, ?_, ?_, rfl, ?_⟩
  · unfold CV.maintenanceUncapped
    split_ifs <;> ring
  · simp [CV.calculateVariables, CV.calculateMaintenance]
  · simp [CV.calculateVariables, CV.calculateMaintenance]
  · simp [CV.calculateVariables, CV.calculateMaintenance, V1.maintenanceNode,
      CV.maintenanceUncapped]

/-- Claim C7 witness: the hypothesis and conclusion of
`claim7_maintenance` at `exampleConfig` and a 25 kg patient. -/
theorem claim7_maintenance_witness :
    (0 : ℚ) < (25 : ℚ) ∧
    (CV.maintenanceUncapped (PatientData.mk 25 7 none false (1/20)).weight
      = (if (PatientData.mk 25 7 none false (1/20)).weight < 10 then
           (PatientData.mk 25 7 none false (1/20)).weight * 100
         else if (PatientData.mk 25 7 none false (1/20)).weight < 20 then
           1000 + ((PatientData.mk 25 7 none false (1/20)).weight - 10) * 50
         else 1500 + ((PatientData.mk 25 7 none false (1/20)).weight - 20) * 20) ∧
      (CV.calculateVariables exampleConfig (PatientData.mk 25 7 none false (1/20))).maintenance.volume.val
        = (if CV.maintenanceUncapped (PatientData.mk 25 7 none false (1/20)).weight
              > exampleConfig.caps.maintenance then
             exampleConfig.caps.maintenance
           else CV.maintenanceUncapped (PatientData.mk 25 7 none false (1/20)).weight) ∧
      (CV.calculateVariables exampleConfig (PatientData.mk 25 7 none false (1/20))).maintenance.rate.val
        = (CV.calculateVariables exampleConfig (PatientData.mk 25 7 none false (1/20))).maintenance.volume.val / 24 ∧
      (CV.calculateMaintenance exampleConfig (PatientData.mk 25 7 none false (1/20)).weight []).2 = [] ∧
      V1.maintenanceNode exampleConfig (PatientData.mk 25 7 none false (1/20))
        = ⟨⟨(CV.calculateVariables exampleConfig (PatientData.mk 25 7 none false (1/20))).maintenance.volume.val⟩,
           ⟨(CV.calculateVariables exampleConfig (PatientData.mk 25 7 none false (1/20))).maintenance.volume.val / 24⟩⟩) :=
  ⟨by norm_num,
   claim7_maintenance exampleConfig (PatientData.mk 25 7 none false (1/20)) [] (by norm_num)⟩

/-- Claim C9.  For every configuration, input and error state: the insulin
uncapped value is the selected rate option times the weight; the cap
lookup returns the configured 0.05-option cap for option 0.05 and the
configured 0.1-option cap for option 0.1 without touching the error list,
and for any other option registers an insulin-cap error and yields no cap
instead of silently defaulting; and the insulin node of the live result
tree is exactly the capped-quantity combination of these parts. -/
theorem claim9_insulin_rate_caps (cfg : Config) (d : PatientData)
    (errs : List CalcError) :
    CV.insulinUncapped d = d.insulinRate * d.weight ∧
    CV.calculateInsulinCapped cfg d.insulinRate errs
      = (if d.insulinRate = (0.05 : ℚ) then (some cfg.caps.insulin005, errs)
         else if d.insulinRate = (0.1 : ℚ) then (some cfg.caps.insulin01, errs)
         else (none, errs ++ [CalcError.insulinCap])) ∧
    (CV.calculateVariables cfg d).insulinRate = (CV.calculateInsulinRate cfg d errs).1 ∧
    (CV.calculateInsulinRate cfg d errs).1
      = ⟨if CV.insulinUncapped d
              > jsNum (CV.calculateInsulinCapped cfg d.insulinRate errs).1 then
           (CV.calculateInsulinCapped cfg d.insulinRate errs).1
         else some (CV.insulinUncapped d),
         decide (CV.insulinUncapped d
              > jsNum (CV.calculateInsulinCapped cfg d.insulinRate errs).1)⟩ := by
  have hfst : ∀ e1 e2 : List CalcError,
      (CV.calculateInsulinCapped cfg d.insulinRate e1).1
        = (CV.calculateInsulinCapped cfg d.insulinRate e2).1 := by
    intro e1 e2
    simp only [CV.calculateInsulinCapped]
    split_ifs <;> rfl
  refine ⟨rfl, rfl, ?_, by simp [CV.calculateInsulinRate]⟩
  simp [CV.calculateVariables, CV.calculateInsulinRate,
    hfst ((CV.calculateMaintenance cfg d.weight
      (CV.calculateDeficit cfg d (CV.calculateSeverity cfg d []).1
        (CV.calculateBolusVolume cfg d (CV.calculateSeverity cfg d []).2).1.val
        (CV.calculateBolusVolume cfg d (CV.calculateSeverity cfg d []).2).2).2).2) errs]

/-- Claim C10 (counterexample).  The claim predicts that for an
unrecognized insulin option the node still carries the numeric value
option × weight with `isCapped = false`; in the live `calculateVariables`
engine the failed cap lookup returns `false`, which coerces to 0 in the
exceeds-cap comparison, so at option 0.2 and weight 10 the node instead
has `isCapped = true` and a non-numeric `false` value. -/
theorem claim10_counterexample :
    (CV.calculateVariables exampleConfig (PatientData.mk 10 7 (some 20) false (1/5))).insulinRate
      = ⟨none, true⟩ ∧
    (CV.calculateVariables exampleConfig (PatientData.mk 10 7 (some 20) false (1/5))).insulinRate.val
      ≠ some ((PatientData.mk 10 7 (some 20) false (1/5)).insulinRate
          * (PatientData.mk 10 7 (some 20) false (1/5)).weight) := by
  have h : (CV.calculateVariables exampleConfig
      (PatientData.mk 10 7 (some 20) false (1/5))).insulinRate = ⟨none, true⟩ := by
    norm_num [CV.calculateVariables, CV.calculateSeverity, CV.calculateSeverityResult,
      CV.severityLevels, CV.checkSeverityLevel, jsUndefLt, CV.calculateBolusVolume,
      CV.calculateDeficit, CV.calculatePercentageVal, CV.deficitPercentageOf,
      CV.calculateVolume, CV.deficitVolumeUncapped, CV.calculateDeficitVolumeCapped,
      CV.calculateDeficitVolumeLimit, CV.calculateVolumeLessBolus,
      CV.calculateMaintenance, CV.maintenanceUncapped, CV.calculateInsulinRate,
      CV.calculateInsulinCapped, CV.insulinUncapped, jsNum, exampleConfig,
      List.findSome?]
  refine ⟨h, ?_⟩
  rw [h]
  simp

/-- Claim C10 (amended).  For every configuration, input and error state
with an insulin option other than 0.05 and 0.1: in the
`performCalculations` variant the failed cap lookup yields no number, the
exceeds-cap comparison evaluates to false, and the returned node carries
the numeric value option × weight with `isCapped = false`, alongside the
registered errors (two cap errors, a limit error and a third cap error
from the re-evaluations); in the live `calculateVariables` engine the
failed lookup instead yields `false`, which coerces to 0, so whenever
option × weight is positive the node has `isCapped = true` and the
non-numeric value `false`, alongside one registered cap error. -/
theorem claim10_unrecognized_insulin (cfg : Config) (d : PatientData)
    (errs : List CalcError) (h1 : d.insulinRate ≠ (0.05 : ℚ))
    (h2 : d.insulinRate ≠ (0.1 : ℚ)) :
    V1.insulinRateM cfg d errs
      = Except.ok (⟨some (d.insulinRate * d.weight), false⟩,
          errs ++ [CalcError.insulinCap, CalcError.insulinCap,
            CalcError.insulinLimit, CalcError.insulinCap]) ∧
    (0 < d.insulinRate * d.weight →
      (CV.calculateInsulinRate cfg d errs).1 = ⟨none, true⟩ ∧
      (CV.calculateInsulinRate cfg d errs).2 = errs ++ [CalcError.insulinCap]) := by
  constructor
  · simp [V1.insulinRateM, V1.insulinValM, V1.insulinIsCappedM, V1.insulinCappedM,
      V1.insulinLimitM, V1.insulinWorkingM, V1.insulinUncapped, V1.pushErr,
      calcm_run_bind, calcm_run_pure, calcm_run_map, except_bind_ok, h1, h2]
  · intro hpos
    constructor
    · simp [CV.calculateInsulinRate, CV.calculateInsulinCapped, CV.insulinUncapped,
        jsNum, h1, h2, hpos]
    · simp [CV.calculateInsulinRate, CV.calculateInsulinCapped, h1, h2]

/-- Claim C10 witness: the hypotheses and conclusion of
`claim10_unrecognized_insulin` at option 0.2, weight 10. -/
theorem claim10_unrecognized_insulin_witness :
    ((1/5 : ℚ) ≠ (0.05 : ℚ)) ∧ ((1/5 : ℚ) ≠ (0.1 : ℚ)) ∧
    (V1.insulinRateM exampleConfig (PatientData.mk 10 7 (some 20) false (1/5)) []
        = Except.ok (⟨some ((1/5 : ℚ) * 10), false⟩,
            [] ++ [CalcError.insulinCap, CalcError.insulinCap,
              CalcError.insulinLimit, CalcError.insulinCap]) ∧
      (0 < (1/5 : ℚ) * 10 →
        (CV.calculateInsulinRate exampleConfig
            (PatientData.mk 10 7 (some 20) false (1/5)) []).1 = ⟨none, true⟩ ∧
        (CV.calculateInsulinRate exampleConfig
            (PatientData.mk 10 7 (some 20) false (1/5)) []).2
          = [] ++ [CalcError.insulinCap])) :=
  ⟨by norm_num, by norm_num,
   claim10_unrecognized_insulin exampleConfig (PatientData.mk 10 7 (some 20) false (1/5))
     [] (by norm_num) (by norm_num)⟩



/-- Claim C5 (amended).  For every configuration and input on which no
severity tier matches, the live `calculateVariables` engine reports the
severity as undetermined and records exactly one classification error in
the evaluation's error list (the historical `performCalculations` variant
instead re-runs the classifier at every reference, recording one
classification error per re-evaluation, or throws before recording
anything when bicarbonate is absent). -/
theorem claim5_one_classification_error (cfg : Config) (d : PatientData)
    (h : specFirstMatchSeverity cfg d = none) :
    (CV.calculateVariables cfg d).severity = none ∧
    countClassification (CV.calculateVariables cfg d).errors = 1 := by
  have hres : CV.calculateSeverityResult cfg d = none := by
    rw [cv_severity_eq_spec, h]
  constructor
  · simp [CV.calculateVariables, CV.calculateSeverity, hres]
  · simp only [CV.calculateVariables, CV.calculateSeverity, hres,
      CV.calculateBolusVolume, CV.calculateDeficit, CV.calculatePercentageVal,
      CV.calculateVolume, CV.calculateDeficitVolumeCapped,
      CV.calculateDeficitVolumeLimit, CV.calculateMaintenance,
      CV.calculateInsulinRate, CV.calculateInsulinCapped,
      CV.calculateGlucoseBolusVolume, CV.calculateHhsBolusVolume]
    split_ifs <;> simp [countClassification]



/-- Claim C5 witness: the hypothesis and conclusion of
`claim5_one_classification_error` at `exampleConfig` and
`noMatchInput`. -/
theorem claim5_one_classification_error_witness :
    specFirstMatchSeverity exampleConfig noMatchInput = none ∧
    ((CV.calculateVariables exampleConfig noMatchInput).severity = none ∧
      countClassification (CV.calculateVariables exampleConfig noMatchInput).errors = 1) := by
  have h : specFirstMatchSeverity exampleConfig noMatchInput = none := by
    norm_num [specFirstMatchSeverity, specTierMatches, exampleConfig, noMatchInput,
      List.find?]
  exact ⟨h, claim5_one_classification_error exampleConfig noMatchInput h⟩

section V1Run

variable (cfg : Config) (d : PatientData) (b : ℚ)



lemma v1run_severity (h1 : V1.sevResult cfg d = none) (h2 : d.bicarbonate = some b)
    (s : List CalcError) : V1.severityM cfg d s = Except.ok (none, s ++ eSev) := by
  unfold V1.severityM
  rw [h1, h2]
  simp [V1.pushErr, calcm_run_bind, calcm_run_pure, calcm_run_map, except_bind_ok, eSev]

lemma v1run_percVal (h1 : V1.sevResult cfg d = none) (h2 : d.bicarbonate = some b)
    (s : List CalcError) : V1.percentageValM cfg d s = Except.ok (0, s ++ ePctVal) := by
  unfold V1.percentageValM
  simp [calcm_run_bind, calcm_run_pure, calcm_run_map, except_bind_ok,
    v1run_severity cfg d b h1 h2, V1.pushErr, ePctVal, List.append_assoc]

lemma v1run_percWork (h1 : V1.sevResult cfg d = none) (h2 : d.bicarbonate = some b)
    (s : List CalcError) : V1.percentageWorkingM cfg d s = Except.ok ((), s ++ eSev) := by
  unfold V1.percentageWorkingM
  simp [calcm_run_bind, calcm_run_pure, calcm_run_map, except_bind_ok,
    v1run_severity cfg d b h1 h2]

lemma v1run_perc (h1 : V1.sevResult cfg d = none) (h2 : d.bicarbonate = some b)
    (s : List CalcError) : V1.percentageM cfg d s = Except.ok (⟨0⟩, s ++ ePct) := by
  unfold V1.percentageM
  simp [calcm_run_bind, calcm_run_pure, calcm_run_map, except_bind_ok,
    v1run_percVal cfg d b h1 h2, v1run_percWork cfg d b h1 h2, ePct, List.append_assoc]

lemma v1run_volUncapped (h1 : V1.sevResult cfg d = none) (h2 : d.bicarbonate = some b)
    (s : List CalcError) : V1.volumeUncappedM cfg d s = Except.ok (0, s ++ ePct) := by
  unfold V1.volumeUncappedM
  simp [calcm_run_bind, calcm_run_pure, calcm_run_map, except_bind_ok,
    v1run_perc cfg d b h1 h2]

lemma v1run_volCapped (h1 : V1.sevResult cfg d = none) (h2 : d.bicarbonate = some b)
    (s : List CalcError) : V1.volumeCappedM cfg d s = Except.ok (0, s ++ eVolCapped) := by
  unfold V1.volumeCappedM
  simp [calcm_run_bind, calcm_run_pure, calcm_run_map, except_bind_ok,
    v1run_perc cfg d b h1 h2, V1.pushErr, eVolCapped, List.append_assoc,
    eq_false (by norm_num : ((0 : ℚ) ≠ 5)), eq_false (by norm_num : ((0 : ℚ) ≠ 10))]

lemma v1run_volIsCapped (h1 : V1.sevResult cfg d = none) (h2 : d.bicarbonate = some b)
    (s : List CalcError) : V1.volumeIsCappedM cfg d s = Except.ok (false, s ++ eVolIsCapped) := by
  unfold V1.volumeIsCappedM
  simp [calcm_run_bind, calcm_run_pure, calcm_run_map, except_bind_ok,
    v1run_volUncapped cfg d b h1 h2, v1run_volCapped cfg d b h1 h2,
    eVolIsCapped, List.append_assoc]

lemma v1run_volVal (h1 : V1.sevResult cfg d = none) (h2 : d.bicarbonate = some b)
    (s : List CalcError) : V1.volumeValM cfg d s = Except.ok (0, s ++ eVolVal) := by
  unfold V1.volumeValM
  simp [calcm_run_bind, calcm_run_pure, calcm_run_map, except_bind_ok,
    v1run_volIsCapped cfg d b h1 h2, v1run_volUncapped cfg d b h1 h2,
    eVolVal, List.append_assoc]

lemma v1run_volLimit (h1 : V1.sevResult cfg d = none) (h2 : d.bicarbonate = some b)
    (s : List CalcError) : V1.volumeLimitM cfg d s = Except.ok ((), s ++ ePct) := by
  unfold V1.volumeLimitM
  simp [calcm_run_bind, calcm_run_pure, calcm_run_map, except_bind_ok,
    v1run_perc cfg d b h1 h2]

lemma v1run_volWork (h1 : V1.sevResult cfg d = none) (h2 : d.bicarbonate = some b)
    (s : List CalcError) : V1.volumeWorkingM cfg d s = Except.ok ((), s ++ eVolWork) := by
  unfold V1.volumeWorkingM
  simp [calcm_run_bind, calcm_run_pure, calcm_run_map, except_bind_ok,
    v1run_perc cfg d b h1 h2, v1run_volUncapped cfg d b h1 h2,
    v1run_volIsCapped cfg d b h1 h2, eVolWork, List.append_assoc]

lemma v1run_vol (h1 : V1.sevResult cfg d = none) (h2 : d.bicarbonate = some b)
    (s : List CalcError) : V1.volumeM cfg d s = Except.ok (⟨0, false⟩, s ++ eVol) := by
  unfold V1.volumeM
  simp [calcm_run_bind, calcm_run_pure, calcm_run_map, except_bind_ok,
    v1run_volVal cfg d b h1 h2, v1run_volLimit cfg d b h1 h2,
    v1run_volWork cfg d b h1 h2, v1run_volIsCapped cfg d b h1 h2,
    eVol, List.append_assoc]

lemma v1run_vlbVal (h1 : V1.sevResult cfg d = none) (h2 : d.bicarbonate = some b)
    (s : List CalcError) :
    V1.vlbValM cfg d s = Except.ok (0 - V1.bolusToSubtract cfg d, s ++ eVol) := by
  unfold V1.vlbValM
  simp [calcm_run_bind, calcm_run_pure, calcm_run_map, except_bind_ok,
    v1run_vol cfg d b h1 h2]

lemma v1run_vlbWork (h1 : V1.sevResult cfg d = none) (h2 : d.bicarbonate = some b)
    (s : List CalcError) :
    V1.vlbWorkingM cfg d s = Except.ok ((), s ++ (eVol ++ eVol)) := by
  unfold V1.vlbWorkingM
  simp [calcm_run_bind, calcm_run_pure, calcm_run_map, except_bind_ok,
    v1run_vol cfg d b h1 h2, v1run_vlbVal cfg d b h1 h2, List.append_assoc]

lemma v1run_vlb (h1 : V1.sevResult cfg d = none) (h2 : d.bicarbonate = some b)
    (s : List CalcError) :
    V1.volumeLessBolusM cfg d s
      = Except.ok (⟨V1.bolusToSubtract cfg d, 0 - V1.bolusToSubtract cfg d⟩,
          s ++ eVlb) := by
  unfold V1.volumeLessBolusM
  simp [calcm_run_bind, calcm_run_pure, calcm_run_map, except_bind_ok,
    v1run_vlbVal cfg d b h1 h2, v1run_vlbWork cfg d b h1 h2, eVlb, List.append_assoc]

lemma v1run_rateVal (h1 : V1.sevResult cfg d = none) (h2 : d.bicarbonate = some b)
    (s : List CalcError) :
    V1.rateValM cfg d s
      = Except.ok (volumeToRate (0 - V1.bolusToSubtract cfg d)
          cfg.deficitReplacementDuration, s ++ eVlb) := by
  unfold V1.rateValM
  simp [calcm_run_bind, calcm_run_pure, calcm_run_map, except_bind_ok,
    v1run_vlb cfg d b h1 h2]

lemma v1run_rateWork (h1 : V1.sevResult cfg d = none) (h2 : d.bicarbonate = some b)
    (s : List CalcError) :
    V1.rateWorkingM cfg d s = Except.ok ((), s ++ (eVlb ++ eVlb)) := by
  unfold V1.rateWorkingM
  simp [calcm_run_bind, calcm_run_pure, calcm_run_map, except_bind_ok,
    v1run_vlb cfg d b h1 h2, v1run_rateVal cfg d b h1 h2, List.append_assoc]

lemma v1run_rate (h1 : V1.sevResult cfg d = none) (h2 : d.bicarbonate = some b)
    (s : List CalcError) :
    V1.rateM cfg d s
      = Except.ok (⟨volumeToRate (0 - V1.bolusToSubtract cfg d)
          cfg.deficitReplacementDuration⟩, s ++ eRate) := by
  unfold V1.rateM
  simp [calcm_run_bind, calcm_run_pure, calcm_run_map, except_bind_ok,
    v1run_rateVal cfg d b h1 h2, v1run_rateWork cfg d b h1 h2, eRate,
    List.append_assoc]

lemma v1run_deficit (h1 : V1.sevResult cfg d = none) (h2 : d.bicarbonate = some b)
    (s : List CalcError) :
    V1.deficitM cfg d s
      = Except.ok (⟨⟨0⟩, ⟨0, false⟩,
          ⟨V1.bolusToSubtract cfg d, 0 - V1.bolusToSubtract cfg d⟩,
          ⟨volumeToRate (0 - V1.bolusToSubtract cfg d)
            cfg.deficitReplacementDuration⟩⟩, s ++ eDeficit) := by
  unfold V1.deficitM
  simp [calcm_run_bind, calcm_run_pure, calcm_run_map, except_bind_ok,
    v1run_perc cfg d b h1 h2, v1run_vol cfg d b h1 h2, v1run_vlb cfg d b h1 h2,
    v1run_rate cfg d b h1 h2, eDeficit, List.append_assoc]

lemma v1run_sfrVal (h1 : V1.sevResult cfg d = none) (h2 : d.bicarbonate = some b)
    (s : List CalcError) :
    V1.sfrValM cfg d s
      = Except.ok (volumeToRate (0 - V1.bolusToSubtract cfg d)
            cfg.deficitReplacementDuration
          + (V1.maintenanceNode cfg d).rate.val, s ++ eDeficit) := by
  unfold V1.sfrValM
  simp [calcm_run_bind, calcm_run_pure, calcm_run_map, except_bind_ok,
    v1run_deficit cfg d b h1 h2]

lemma v1run_sfrWork (h1 : V1.sevResult cfg d = none) (h2 : d.bicarbonate = some b)
    (s : List CalcError) :
    V1.sfrWorkingM cfg d s = Except.ok ((), s ++ (eDeficit ++ eDeficit)) := by
  unfold V1.sfrWorkingM
  simp [calcm_run_bind, calcm_run_pure, calcm_run_map, except_bind_ok,
    v1run_deficit cfg d b h1 h2, v1run_sfrVal cfg d b h1 h2, List.append_assoc]

lemma v1run_sfr (h1 : V1.sevResult cfg d = none) (h2 : d.bicarbonate = some b)
    (s : List CalcError) :
    V1.startingFluidRateM cfg d s
      = Except.ok (⟨volumeToRate (0 - V1.bolusToSubtract cfg d)
            cfg.deficitReplacementDuration
          + (V1.maintenanceNode cfg d).rate.val⟩, s ++ eSfr) := by
  unfold V1.startingFluidRateM
  simp [calcm_run_bind, calcm_run_pure, calcm_run_map, except_bind_ok,
    v1run_sfrVal cfg d b h1 h2, v1run_sfrWork cfg d b h1 h2, eSfr,
    List.append_assoc]

lemma v1run_insulinVal (h3 : d.insulinRate = (0.05 : ℚ)) :
    ∃ v, ∀ s : List CalcError, V1.insulinValM cfg d s = Except.ok (v, s) := by
  unfold V1.insulinValM V1.insulinIsCappedM V1.insulinCappedM
  rw [h3]
  by_cases hc : V1.insulinUncapped d > cfg.caps.insulin005
  · exact ⟨some cfg.caps.insulin005, fun s => by
      simp [calcm_run_bind, calcm_run_pure, calcm_run_map, except_bind_ok, hc]⟩
  · exact ⟨some (V1.insulinUncapped d), fun s => by
      simp [calcm_run_bind, calcm_run_pure, calcm_run_map, except_bind_ok, hc]⟩

lemma v1run_insulin (h3 : d.insulinRate = (0.05 : ℚ)) :
    ∃ node, ∀ s : List CalcError, V1.insulinRateM cfg d s = Except.ok (node, s) := by
  obtain ⟨v, hv⟩ := v1run_insulinVal cfg d h3
  unfold V1.insulinRateM V1.insulinIsCappedM V1.insulinCappedM V1.insulinLimitM
      V1.insulinWorkingM
  rw [h3]
  by_cases hc : V1.insulinUncapped d > cfg.caps.insulin005
  · exact ⟨⟨v, true⟩, fun s => by
      simp [calcm_run_bind, calcm_run_pure, calcm_run_map, except_bind_ok, hc, hv]⟩
  · exact ⟨⟨v, false⟩, fun s => by
      simp [calcm_run_bind, calcm_run_pure, calcm_run_map, except_bind_ok, hc, hv]⟩

lemma v1run_main (h1 : V1.sevResult cfg d = none) (h2 : d.bicarbonate = some b)
    (h3 : d.insulinRate = (0.05 : ℚ)) :
    ∃ res, V1.performCalculations cfg d = Except.ok (res, eMain)
      ∧ res.severity = none := by
  obtain ⟨node, hnode⟩ := v1run_insulin cfg d h3
  refine ⟨⟨none, V1.bolusVolumeNode cfg d,
      ⟨⟨0⟩, ⟨0, false⟩, ⟨V1.bolusToSubtract cfg d, 0 - V1.bolusToSubtract cfg d⟩,
        ⟨volumeToRate (0 - V1.bolusToSubtract cfg d) cfg.deficitReplacementDuration⟩⟩,
      V1.maintenanceNode cfg d,
      ⟨volumeToRate (0 - V1.bolusToSubtract cfg d) cfg.deficitReplacementDuration
        + (V1.maintenanceNode cfg d).rate.val⟩,
      node, V1.glucoseBolusNode cfg d, V1.hhsBolusNode cfg d⟩, ?_, rfl⟩
  unfold V1.performCalculations V1.performCalculationsM
  show (V1.severityM cfg d >>= _) [] = _
  simp [calcm_run_bind, calcm_run_pure, calcm_run_map, except_bind_ok,
    v1run_severity cfg d b h1 h2, v1run_deficit cfg d b h1 h2,
    v1run_sfr cfg d b h1 h2, hnode, eMain, List.append_assoc]

end V1Run

/-- Claim C5 (counterexample).  The claim predicts exactly one
classification error when no tier matches; the `performCalculations`
variant re-evaluates `severity()` at every reference, so at pH 7.4 with
bicarbonate 30 (no tier matching) its completed evaluation pass reports
the severity as undetermined but has recorded 1573 classification errors,
not one. -/
theorem claim5_counterexample :
    (V1.performCalculations exampleConfig noMatchInput).map
        (fun p => (p.1.severity, countClassification p.2))
      = Except.ok (none, 1573) ∧ (1573 : Nat) ≠ 1 := by
  have h1 : V1.sevResult exampleConfig noMatchInput = none := by
    rw [v1_severity_eq_spec]
    norm_num [specFirstMatchSeverity, specTierMatches, exampleConfig, noMatchInput,
      List.find?]
  have h3 : noMatchInput.insulinRate = (0.05 : ℚ) := by
    norm_num [noMatchInput]
  obtain ⟨res, hrun, hsev⟩ :=
    v1run_main exampleConfig noMatchInput 30 h1 rfl h3
  rw [hrun]
  refine ⟨?_, by norm_num⟩
  simp only [Except.map]
  rw [hsev]
  have hcount : countClassification eMain = 1573 := by
    set_option maxRecDepth 100000 in decide
  rw [hcount]
